import Mathlib

/-!
Verification of the D-Money multi-merchant payment gateway core
(`crud.py`, `dmoney_service.py`, `main.py`, `models.py`, `schemas.py`).

The Python source is shallowly embedded: pure computations become Lean
functions, database updates become explicit transformations of a `Store`
(the list of persisted orders), and HTTP responses become `(statusCode,
detail)` pairs. JSON-serialized audit payloads (`callback_info`,
`gateway_response`) are modeled by the structured values they serialize
(serialization is an injective function of the payload and is never
inspected by the code under study). Floating-point amounts are carried,
never computed with, so an exact numeric type stands in for `float`.
-/

set_option maxRecDepth 16384

namespace CallSmartly

/-! ### Datetimes and `datetime.strptime(_, "%Y%m%d%H%M%S")`

CPython's `_strptime` compiles `"%Y%m%d%H%M%S"` to the regex
`(\d\d\d\d)(1[0-2]|0[1-9]|[1-9])(3[01]|[12]\d|0[1-9]|[1-9])`
`(2[0-3]|[0-1]\d|\d)([0-5]\d|\d)(6[0-1]|[0-5]\d|\d)`,
takes the first backtracking match, raises `ValueError` when the match
does not consume the whole input ("unconverted data remains"), and then
builds a `datetime`, which validates the year (≥ 1), the day against the
month length, and rejects leap seconds (60, 61). We reproduce exactly
that: an ordered-alternative depth-first matcher followed by the
`datetime` constructor's validation. -/

structure DateTime where
  year : Nat
  month : Nat
  day : Nat
  hour : Nat
  minute : Nat
  second : Nat
deriving DecidableEq, Repr

/-- Numeric value of a decimal digit character. -/
def dval (c : Char) : Nat := c.toNat - 48

/-- Two-digit decimal value. -/
def two (a b : Char) : Nat := dval a * 10 + dval b

/-- `%Y` alternatives: exactly four digits. -/
def candY : List Char → List (Nat × List Char)
  | a :: b :: c :: d :: rest =>
    if a.isDigit ∧ b.isDigit ∧ c.isDigit ∧ d.isDigit then
      [(dval a * 1000 + dval b * 100 + dval c * 10 + dval d, rest)]
    else []
  | _ => []

/-- `%m` alternatives, in regex order: `1[0-2]`, `0[1-9]`, `[1-9]`. -/
def candM : List Char → List (Nat × List Char)
  | [] => []
  | [a] => if '1' ≤ a ∧ a ≤ '9' then [(dval a, [])] else []
  | a :: b :: rest =>
    (if a = '1' ∧ '0' ≤ b ∧ b ≤ '2' then [(two a b, rest)] else []) ++
    (if a = '0' ∧ '1' ≤ b ∧ b ≤ '9' then [(two a b, rest)] else []) ++
    (if '1' ≤ a ∧ a ≤ '9' then [(dval a, b :: rest)] else [])

/-- `%d` alternatives, in regex order: `3[01]`, `[12]\d`, `0[1-9]`, `[1-9]`. -/
def candD : List Char → List (Nat × List Char)
  | [] => []
  | [a] => if '1' ≤ a ∧ a ≤ '9' then [(dval a, [])] else []
  | a :: b :: rest =>
    (if a = '3' ∧ ('0' = b ∨ b = '1') then [(two a b, rest)] else []) ++
    (if (a = '1' ∨ a = '2') ∧ b.isDigit then [(two a b, rest)] else []) ++
    (if a = '0' ∧ '1' ≤ b ∧ b ≤ '9' then [(two a b, rest)] else []) ++
    (if '1' ≤ a ∧ a ≤ '9' then [(dval a, b :: rest)] else [])

/-- `%H` alternatives, in regex order: `2[0-3]`, `[0-1]\d`, `\d`. -/
def candH : List Char → List (Nat × List Char)
  | [] => []
  | [a] => if a.isDigit then [(dval a, [])] else []
  | a :: b :: rest =>
    (if a = '2' ∧ '0' ≤ b ∧ b ≤ '3' then [(two a b, rest)] else []) ++
    (if (a = '0' ∨ a = '1') ∧ b.isDigit then [(two a b, rest)] else []) ++
    (if a.isDigit then [(dval a, b :: rest)] else [])

/-- `%M` alternatives, in regex order: `[0-5]\d`, `\d`. -/
def candMin : List Char → List (Nat × List Char)
  | [] => []
  | [a] => if a.isDigit then [(dval a, [])] else []
  | a :: b :: rest =>
    (if '0' ≤ a ∧ a ≤ '5' ∧ b.isDigit then [(two a b, rest)] else []) ++
    (if a.isDigit then [(dval a, b :: rest)] else [])

/-- `%S` alternatives, in regex order: `6[0-1]`, `[0-5]\d`, `\d`. -/
def candS : List Char → List (Nat × List Char)
  | [] => []
  | [a] => if a.isDigit then [(dval a, [])] else []
  | a :: b :: rest =>
    (if a = '6' ∧ ('0' = b ∨ b = '1') then [(two a b, rest)] else []) ++
    (if '0' ≤ a ∧ a ≤ '5' ∧ b.isDigit then [(two a b, rest)] else []) ++
    (if a.isDigit then [(dval a, b :: rest)] else [])

/-- First backtracking match of the compiled format regex, exactly the
depth-first order of Python's `re` engine (ordered alternation, no
quantifiers). Returns the six captured fields and the unconsumed rest. -/
def dfsMatch (s : List Char) :
    Option (Nat × Nat × Nat × Nat × Nat × Nat × List Char) :=
  (candY s).findSome? fun (y, r₁) =>
  (candM r₁).findSome? fun (mo, r₂) =>
  (candD r₂).findSome? fun (d, r₃) =>
  (candH r₃).findSome? fun (h, r₄) =>
  (candMin r₄).findSome? fun (mi, r₅) =>
  (candS r₅).findSome? fun (sec, r₆) =>
  some (y, mo, d, h, mi, sec, r₆)

def isLeapYear (y : Nat) : Bool := (y % 4 = 0 ∧ y % 100 ≠ 0) ∨ y % 400 = 0

def daysInMonth (y mo : Nat) : Nat :=
  if mo = 2 then (if isLeapYear y then 29 else 28)
  else if mo = 4 ∨ mo = 6 ∨ mo = 9 ∨ mo = 11 then 30
  else 31

/-- `datetime.strptime(s, "%Y%m%d%H%M%S")`, returning `none` where the
Python call raises (no regex match, unconverted trailing data, or the
`datetime` constructor rejecting year 0, an invalid day-of-month, or a
leap second). -/
def strptime14 (s : String) : Option DateTime :=
  match dfsMatch s.data with
  | some (y, mo, d, h, mi, sec, rest) =>
    if rest.isEmpty then
      if 1 ≤ y ∧ 1 ≤ d ∧ d ≤ daysInMonth y mo ∧ sec ≤ 59 then
        some ⟨y, mo, d, h, mi, sec⟩
      else none
    else none
  | none => none

/-! ### Order status vocabulary (`models.OrderStatus`) -/

inductive OrderStatus where
  | PENDING
  | PROCESSING
  | PAYING
  | COMPLETED
  | FAILED
  | EXPIRED
deriving DecidableEq, Repr

/-- The `status_mapping` dict literal shared by `crud.py:105` and
`main.py:239`; `.get` on it. -/
def statusMapping (s : String) : Option OrderStatus :=
  if s = "Paying" then some .PAYING
  else if s = "Completed" then some .COMPLETED
  else if s = "Failure" then some .FAILED
  else if s = "Expired" then some .EXPIRED
  else none

/-- The four payment-outcome states named terminal by the specification. -/
def terminalStatus : OrderStatus → Bool
  | .PAYING | .COMPLETED | .FAILED | .EXPIRED => true
  | _ => false

/-! ### Notification payload (`schemas.NotifyRequest`)

All fields are required strings except the optional `callback_info`;
`notify_data.dict()` therefore always carries every key, so
`notify_data.get(k)` returns the field's string (never `None`) for the
required keys. -/

structure NotifyData where
  appid : String
  merch_code : String
  merch_order_id : String
  notify_time : String
  notify_url : String
  payment_order_id : String
  total_amount : String
  trans_currency : String
  trade_status : String
  trans_end_time : String
  callback_info : Option String
  sign : String
  sign_type : String
deriving DecidableEq, Repr

/-! ### Persisted orders (`models.Order`) -/

structure Order where
  id : Nat
  merchant_id : Nat
  merch_order_id : String
  product_name : String
  quantity : Int
  /-- `float` in the source; only stored and copied, never computed with,
  so an exact numeric type stands in. -/
  total_amount : Rat
  currency : String
  status : OrderStatus
  prepay_id : Option String
  payment_order_id : Option String
  checkout_url : Option String
  customer_name : String
  customer_email : String
  customer_phone : Option String
  created_at : DateTime
  updated_at : DateTime
  trans_end_time : Option DateTime
  /-- `json.dumps(notify_data)` stored on notification; modeled by the
  structured payload it serializes. -/
  callback_info : Option NotifyData
  /-- `json.dumps(gateway_response)`; modeled by the serialized text. -/
  gateway_response : Option String
deriving DecidableEq, Repr

/-- The orders table. `merch_order_id` has a unique index (`models.py:51`);
row lookup (`get_order_by_merch_id`) returns the first match. -/
abbrev Store := List Order

/-- `crud.get_order_by_merch_id`. -/
def get_order_by_merch_id (s : Store) (mid : String) : Option Order :=
  s.find? fun o => o.merch_order_id = mid

/-- In-place ORM mutation of the row found by `get_order_by_merch_id`:
the first matching row is replaced, everything else untouched. -/
def updateFirst (s : Store) (mid : String) (f : Order → Order) : Store :=
  match s with
  | [] => []
  | o :: rest =>
    if o.merch_order_id = mid then f o :: rest
    else o :: updateFirst rest mid f

/-- Everything observable about an order except `updated_at` (which is
stamped with the wall clock on every write). -/
def Order.obs (o : Order) : Order := { o with updated_at := ⟨1970, 1, 1, 0, 0, 0⟩ }

/-- The `(merch_order_id, merchant_id)` identity of a row. -/
def Order.idKey (o : Order) : String × Nat := (o.merch_order_id, o.merchant_id)

/-! ### `crud.update_order_status_from_notify` (applyNotification) -/

/-- The mutation `crud.py:105-126` performs on the found order:
status from `status_mapping.get(trade_status, PROCESSING)`, overwrite
`payment_order_id` and the audit payload, best-effort parse of
`trans_end_time` (non-empty and parseable, else kept), stamp
`updated_at`. -/
def applyNotifyOrder (o : Order) (d : NotifyData) (now : DateTime) : Order :=
  { o with
    status := (statusMapping d.trade_status).getD .PROCESSING
    payment_order_id := some d.payment_order_id
    callback_info := some d
    trans_end_time :=
      if d.trans_end_time = "" then o.trans_end_time
      else
        match strptime14 d.trans_end_time with
        | some t => some t
        | none => o.trans_end_time
    updated_at := now }

/-- `crud.update_order_status_from_notify`: lookup by
`merch_order_id`; `None` and no write when absent, else the in-place
update above. Returns the refreshed order and the resulting table. -/
def update_order_status_from_notify (s : Store) (d : NotifyData) (now : DateTime) :
    Option Order × Store :=
  match get_order_by_merch_id s d.merch_order_id with
  | none => (none, s)
  | some o =>
    (some (applyNotifyOrder o d now),
     updateFirst s d.merch_order_id (fun x => applyNotifyOrder x d now))

/-- `str(starlette.HTTPException(code, detail))` as re-raised by the
blanket `except Exception` handlers: `f"\x7bstatus_code\x7d: \x7bdetail\x7d"`. -/
def strHTTPExc (code : Nat) (detail : String) : String :=
  toString code ++ ": " ++ detail

/-- `main.payment_notify` (`/api/notify`): calls the CRUD update; when no
order is found it raises `HTTPException(404, "Order not found")`, which
the surrounding `except Exception` catches and rewraps as
`HTTPException(500, str(e))`. The HTTP result is `(statusCode, detail)`. -/
def payment_notify (s : Store) (d : NotifyData) (now : DateTime) :
    (Nat × String) × Store :=
  match update_order_status_from_notify s d now with
  | (none, s') => ((500, strHTTPExc 404 "Order not found"), s')
  | (some _, s') =>
    ((200, "Payment notification processed. Status: " ++ d.trade_status), s')

/-! ### `crud.update_order_with_payment` (attachPayment) -/

/-- The mutation `crud.py:89-93` performs on the found order. -/
def attachPayment (o : Order) (prepay_id checkout_url gateway_response : String)
    (now : DateTime) : Order :=
  { o with
    prepay_id := some prepay_id
    checkout_url := some checkout_url
    gateway_response := some gateway_response
    status := .PROCESSING
    updated_at := now }

/-- `crud.update_order_with_payment`. -/
def update_order_with_payment (s : Store) (mid prepay_id checkout_url gw : String)
    (now : DateTime) : Option Order × Store :=
  match get_order_by_merch_id s mid with
  | none => (none, s)
  | some o =>
    (some (attachPayment o prepay_id checkout_url gw now),
     updateFirst s mid (fun x => attachPayment x prepay_id checkout_url gw now))

/-! ### `crud.create_order` -/

structure CreateOrderData where
  merchant_id : Nat
  product_name : String
  quantity : Int
  total_amount : Rat
  currency : Option String
  customer_name : String
  customer_email : String
  customer_phone : Option String
deriving DecidableEq, Repr

/-- `crud.create_order`: the merchant order id is generated once here and
assigned to the new row; status starts at PENDING, the processor
correlation fields empty. -/
def create_order (data : CreateOrderData) (mid : String) (rowId : Nat)
    (now : DateTime) : Order :=
  { id := rowId
    merchant_id := data.merchant_id
    merch_order_id := mid
    product_name := data.product_name
    quantity := data.quantity
    total_amount := data.total_amount
    currency := data.currency.getD "DJF"
    status := .PENDING
    prepay_id := none
    payment_order_id := none
    checkout_url := none
    customer_name := data.customer_name
    customer_email := data.customer_email
    customer_phone := data.customer_phone
    created_at := now
    updated_at := now
    trans_end_time := none
    callback_info := none
    gateway_response := none }

/-! ### `main.query_order` (applyQueryResult) -/

/-- The queryOrder processor response, flattened: `code`, `result`, `msg`
at top level, `order_status` and `payment_order_id` from
`biz_content` (`resp.get("biz_content", \x7b\x7d)` makes a missing
`biz_content` indistinguishable from one missing these keys). -/
structure QueryResponse where
  code : Option String
  result : Option String
  msg : Option String
  order_status : Option String
  payment_order_id : Option String
deriving DecidableEq, Repr

/-- `main.query_order` after the processor call (`main.py:229-263`):
business failure (`code != "0" or result != "SUCCESS"`) raises
`HTTPException(400, msg)` before any local write, rewrapped by the
blanket `except` into a 500 carrying `str(e)`; on business success the
local order is rewritten only when it exists, `order_status` is truthy
and maps to a recognized status. -/
def query_order_handler (s : Store) (mid : String) (resp : QueryResponse)
    (now : DateTime) : (Nat × String) × Store :=
  if resp.code = some "0" ∧ resp.result = some "SUCCESS" then
    ((200, "Order query successful"),
      match get_order_by_merch_id s mid with
      | none => s
      | some _ =>
        match resp.order_status with
        | none => s
        | some os =>
          if os = "" then s
          else
            match statusMapping os with
            | none => s
            | some st =>
              updateFirst s mid fun o =>
                { o with
                  status := st
                  payment_order_id := resp.payment_order_id
                  updated_at := now })
  else ((500, strHTTPExc 400 (resp.msg.getD "Query order failed")), s)

/-! ### `DMoneyService.generate_token` (fetchToken) -/

/-- Token endpoint response: HTTP status plus the optional `token` and
`expirationDate` body fields. -/
structure TokenResponse where
  status : Nat
  token : Option String
  expirationDate : Option String
deriving DecidableEq, Repr

/-- `token[7:]` after the `startswith("Bearer ")` test
(`dmoney_service.py:55-56`), over the char list of the string. -/
def stripBearer (t : String) : String :=
  if t.data.take 7 = "Bearer ".data then String.mk (t.data.drop 7) else t

/-- Failure modes of `generate_token`: the explicit raise on a non-200
status, `TypeError` from `strptime(None, …)` when `expirationDate` is
absent, `ValueError` when it does not parse. -/
inductive TokenError where
  | httpStatus
  | missingExpiration
  | badExpiration
deriving DecidableEq, Repr

/-- `DMoneyService.generate_token` (`dmoney_service.py:34-61`): raises
unless the HTTP status is exactly 200; defaults a missing `token` field
to `""`; strips a literal `"Bearer "` prefix; parses `expirationDate`
with `strptime(_, "%Y%m%d%H%M%S")`, raising when it is absent or
malformed. -/
def generate_token (resp : TokenResponse) : Except TokenError (String × DateTime) :=
  if resp.status ≠ 200 then .error .httpStatus
  else
    let token := stripBearer (resp.token.getD "")
    match resp.expirationDate with
    | none => .error .missingExpiration
    | some s =>
      match strptime14 s with
      | none => .error .badExpiration
      | some dt => .ok (token, dt)

/-! ### `DMoneyService._sign_request` canonicalization

The input `params: Dict[str, Any]` is modeled as an association list
(distinct keys in the source, since it is a `dict`); a value is `none`
for Python `None` and otherwise the already-applied `str(v)`. The RSA-PSS
signing of the canonical byte string is salted randomness outside the
embedding; the canonical string is what the claims inspect. -/

/-- `str.strip()` on the ASCII whitespace Python strips. -/
def isPySpace (c : Char) : Bool :=
  c = ' ' ∨ c = '\t' ∨ c = '\n' ∨ c = '\r' ∨ c = '\x0b' ∨ c = '\x0c'

/-- Python `str.strip()`. -/
def pyStrip (s : String) : String :=
  String.mk (((s.data.dropWhile isPySpace).reverse.dropWhile isPySpace).reverse)

def excludedKeys : List String := ["sign", "sign_type", "biz_content"]

/-- The dict comprehension `dmoney_service.py:66-69`: keep entries whose
key is not excluded, whose value is not `None` and whose stringified
value does not strip to empty. -/
def filteredEntries (params : List (String × Option String)) :
    List (String × String) :=
  params.filterMap fun kv =>
    match kv.2 with
    | none => none
    | some v =>
      if kv.1 ∈ excludedKeys then none
      else if pyStrip v = "" then none
      else some (kv.1, v)

/-- Python tuple comparison on `(key, value)` pairs, the order
`sorted(filtered_params.items())` sorts by (`sorted` compares with `<`;
the reflexive closure is the matching total order). -/
def pairLe (a b : String × String) : Prop :=
  a.1.data < b.1.data ∨ (a.1 = b.1 ∧ (a.2.data < b.2.data ∨ a.2 = b.2))

instance : DecidableRel pairLe := fun _ _ =>
  inferInstanceAs (Decidable (_ ∨ _))

theorem string_eq_of_data_eq {a b : String} (h : a.data = b.data) : a = b := by
  cases a; cases b; exact congrArg String.mk h

instance : IsTotal (String × String) pairLe where
  total a b := by
    rcases lt_trichotomy a.1.data b.1.data with h | h | h
    · exact Or.inl (Or.inl h)
    · rcases lt_trichotomy a.2.data b.2.data with h2 | h2 | h2
      · exact Or.inl (Or.inr ⟨string_eq_of_data_eq h, Or.inl h2⟩)
      · exact Or.inl (Or.inr ⟨string_eq_of_data_eq h,
          Or.inr (string_eq_of_data_eq h2)⟩)
      · exact Or.inr (Or.inr ⟨string_eq_of_data_eq h.symm, Or.inl h2⟩)
    · exact Or.inr (Or.inl h)

instance : IsTrans (String × String) pairLe where
  trans a b c hab hbc := by
    rcases hab with h1 | ⟨e1, l1⟩
    · rcases hbc with h2 | ⟨e2, _⟩
      · exact Or.inl (lt_trans h1 h2)
      · exact Or.inl (e2 ▸ h1)
    · rcases hbc with h2 | ⟨e2, l2⟩
      · exact Or.inl (e1 ▸ h2)
      · refine Or.inr ⟨e1.trans e2, ?_⟩
        rcases l1 with l1 | l1
        · rcases l2 with l2 | l2
          · exact Or.inl (lt_trans l1 l2)
          · exact Or.inl (l2 ▸ l1)
        · exact l1 ▸ l2

instance : IsAntisymm (String × String) pairLe where
  antisymm a b hab hba := by
    rcases hab with h1 | ⟨e1, l1⟩
    · rcases hba with h2 | ⟨e2, _⟩
      · exact absurd h2 (lt_asymm h1)
      · exact absurd h1 (e2 ▸ lt_irrefl _)
    · rcases hba with h2 | ⟨e2, l2⟩
      · exact absurd h2 (e1 ▸ lt_irrefl _)
      · rcases l1 with l1 | l1
        · rcases l2 with l2 | l2
          · exact absurd (lt_trans l1 l2) (lt_irrefl _)
          · exact absurd l1 (l2 ▸ lt_irrefl _)
        · exact Prod.ext e1 l1

/-- `'&'.join(...)`. -/
def joinAmp : List String → String
  | [] => ""
  | [x] => x
  | x :: xs => x ++ "&" ++ joinAmp xs

/-- The canonical string `raw_request` of `_sign_request`
(`dmoney_service.py:65-72`): filter, sort (`sorted` on pair tuples),
render `k=v`, join with `&`. -/
def canonicalString (params : List (String × Option String)) : String :=
  joinAmp ((List.insertionSort pairLe (filteredEntries params)).map
    fun kv => kv.1 ++ "=" ++ kv.2)

/-- Modelled from the claim's words for a refinement comparison: the same
pipeline but dropping only entries whose value is absent or whose
stringified value is the empty string (no whitespace stripping). -/
def canonicalStringClaim (params : List (String × Option String)) : String :=
  joinAmp ((List.insertionSort pairLe (params.filterMap fun kv =>
    match kv.2 with
    | none => none
    | some v =>
      if kv.1 ∈ excludedKeys then none
      else if v = "" then none
      else some (kv.1, v))).map
    fun kv => kv.1 ++ "=" ++ kv.2)

/-! ### `DMoneyService.generate_checkout_url` -/

/-- Uppercase hexadecimal digit (`%%%02X` formatting in
`urllib.parse.quote`). -/
def hexDigitU (n : Nat) : Char :=
  if n < 10 then Char.ofNat (48 + n) else Char.ofNat (55 + n)

/-- UTF-8 encoding of one character (Python encodes the string as UTF-8
before percent-escaping the bytes). -/
def utf8Bytes (c : Char) : List Nat :=
  let n := c.toNat
  if n < 0x80 then [n]
  else if n < 0x800 then [0xC0 + n / 64, 0x80 + n % 64]
  else if n < 0x10000 then
    [0xE0 + n / 4096, 0x80 + n / 64 % 64, 0x80 + n % 64]
  else
    [0xF0 + n / 262144, 0x80 + n / 4096 % 64, 0x80 + n / 64 % 64, 0x80 + n % 64]

/-- `urllib.parse.quote`'s always-safe set (with `safe=''`): ASCII
letters, digits, `_ . - ~`. -/
def isUrlSafe (c : Char) : Bool :=
  c.isAlphanum ∨ c = '_' ∨ c = '.' ∨ c = '-' ∨ c = '~'

/-- `urllib.parse.quote(s, safe='')`. -/
def pyQuote (s : String) : String :=
  String.mk (s.data.flatMap fun c =>
    if isUrlSafe c then [c]
    else (utf8Bytes c).flatMap fun b => ['%', hexDigitU (b / 16), hexDigitU (b % 16)])

/-- `DMoneyService.generate_checkout_url` after signing
(`dmoney_service.py:183-195`): the f-string URL. Only the `sign`
parameter goes through `quote`; every other parameter is interpolated
verbatim. -/
def generate_checkout_url (checkout_base_url appid merch_code nonce_str
    prepay_id timestamp signature : String) : String :=
  checkout_base_url ++ "/payment/web/paygate?" ++
  "appid=" ++ appid ++ "&" ++
  "merch_code=" ++ merch_code ++ "&" ++
  "nonce_str=" ++ nonce_str ++ "&" ++
  "prepay_id=" ++ prepay_id ++ "&" ++
  "timestamp=" ++ timestamp ++ "&" ++
  "sign=" ++ pyQuote signature ++ "&" ++
  "sign_type=SHA256WithRSA&" ++
  "version=1.0&" ++
  "trade_type=Checkout&" ++
  "language=en"

/-! ### `crud.generate_merch_order_id` -/

/-- Fixed-width zero-padded decimal digits, most significant first
(`strftime` zero-pads `%m %d %H %M %S` to two digits and `%Y` to four
for years ≥ 1000). -/
def padDigits : (w : Nat) → Nat → List Char
  | 0, _ => []
  | w + 1, n => Nat.digitChar (n / 10 ^ w) :: padDigits w (n % 10 ^ w)

/-- `datetime.now().strftime("%Y%m%d%H%M%S")`. -/
def format14 (t : DateTime) : String :=
  String.mk (padDigits 4 t.year ++ padDigits 2 t.month ++ padDigits 2 t.day ++
    padDigits 2 t.hour ++ padDigits 2 t.minute ++ padDigits 2 t.second)

/-- The 14-digit number the timestamp spells: chronological order for
in-range datetimes. -/
def encodeDT (t : DateTime) : Nat :=
  ((((t.year * 100 + t.month) * 100 + t.day) * 100 + t.hour) * 100 +
    t.minute) * 100 + t.second

/-- Field ranges under which `strftime` produces exactly 14 digits:
calendar fields as `datetime` guarantees them, year bounded so `%Y`
prints four digits. -/
def DateTime.InRange (t : DateTime) : Prop :=
  1000 ≤ t.year ∧ t.year ≤ 9999 ∧ t.month ≤ 99 ∧ t.day ≤ 99 ∧
    t.hour ≤ 99 ∧ t.minute ≤ 99 ∧ t.second ≤ 99

/-- One byte as two lowercase hex digits (`binascii.hexlify`). -/
def byteHexL (b : Nat) : List Char :=
  [Nat.digitChar (b / 16 % 16), Nat.digitChar (b % 16)]

/-- `secrets.token_hex(4)` on the four drawn bytes. -/
def token_hex (bs : List Nat) : String :=
  String.mk (bs.flatMap byteHexL)

/-- `crud.generate_merch_order_id`, parameterized by the wall clock and
the four random bytes `secrets.token_hex(4)` draws:
`f"ORD\x7btimestamp\x7d\x7brandom_part\x7d"` with the hex uppercased. -/
def generate_merch_order_id (t : DateTime) (bs : List Nat) : String :=
  "ORD" ++ format14 t ++ String.mk ((token_hex bs).data.map Char.toUpper)

/-! ### Helper lemmas about `updateFirst` -/

theorem mem_updateFirst {s : Store} {mid : String} {f : Order → Order} {o' : Order}
    (h : o' ∈ updateFirst s mid f) : o' ∈ s ∨ ∃ o ∈ s, o' = f o := by
  induction s with
  | nil => simp [updateFirst] at h
  | cons hd tl ih =>
    by_cases hhd : hd.merch_order_id = mid
    · rw [updateFirst, if_pos hhd] at h
      rcases List.mem_cons.mp h with h | h
      · exact Or.inr ⟨hd, List.mem_cons_self hd tl, h⟩
      · exact Or.inl (List.mem_cons_of_mem hd h)
    · rw [updateFirst, if_neg hhd] at h
      rcases List.mem_cons.mp h with h | h
      · exact Or.inl (h ▸ List.mem_cons_self hd tl)
      · rcases ih h with h | ⟨o, ho, rfl⟩
        · exact Or.inl (List.mem_cons_of_mem hd h)
        · exact Or.inr ⟨o, List.mem_cons_of_mem hd ho, rfl⟩

theorem updateFirst_length (s : Store) (mid : String) (f : Order → Order) :
    (updateFirst s mid f).length = s.length := by
  induction s with
  | nil => rfl
  | cons hd tl ih =>
    by_cases hhd : hd.merch_order_id = mid <;>
      simp [updateFirst, hhd, ih]

theorem updateFirst_map_congr {β : Type} (g : Order → β) (s : Store) (mid : String)
    (f₁ f₂ : Order → Order) (h : ∀ o, g (f₁ o) = g (f₂ o)) :
    (updateFirst s mid f₁).map g = (updateFirst s mid f₂).map g := by
  induction s with
  | nil => rfl
  | cons hd tl ih =>
    by_cases hhd : hd.merch_order_id = mid <;>
      simp [updateFirst, hhd, ih, h]

theorem updateFirst_map_eq {β : Type} (g : Order → β) (s : Store) (mid : String)
    (f : Order → Order) (h : ∀ o, g (f o) = g o) :
    (updateFirst s mid f).map g = s.map g := by
  induction s with
  | nil => rfl
  | cons hd tl ih =>
    by_cases hhd : hd.merch_order_id = mid <;>
      simp [updateFirst, hhd, ih, h]

theorem updateFirst_updateFirst (s : Store) (mid : String) (f g : Order → Order)
    (hf : ∀ o, (f o).merch_order_id = o.merch_order_id) :
    updateFirst (updateFirst s mid f) mid g = updateFirst s mid (fun o => g (f o)) := by
  induction s with
  | nil => rfl
  | cons hd tl ih =>
    by_cases hhd : hd.merch_order_id = mid
    · rw [updateFirst, if_pos hhd, updateFirst, if_pos (by rw [hf]; exact hhd),
        updateFirst, if_pos hhd]
    · rw [updateFirst, if_neg hhd, updateFirst, if_neg hhd, updateFirst, if_neg hhd, ih]

theorem find?_updateFirst (s : Store) (mid : String) (f : Order → Order)
    (hf : ∀ o, (f o).merch_order_id = o.merch_order_id) :
    get_order_by_merch_id (updateFirst s mid f) mid =
      (get_order_by_merch_id s mid).map f := by
  induction s with
  | nil => rfl
  | cons hd tl ih =>
    by_cases hhd : hd.merch_order_id = mid
    · rw [updateFirst, if_pos hhd]
      simp [get_order_by_merch_id, List.find?_cons, hf, hhd]
    · rw [updateFirst, if_neg hhd]
      simpa [get_order_by_merch_id, List.find?_cons, hhd] using ih

/-- A recognized status string always maps to one of the four terminal
states. -/
theorem statusMapping_terminal {s : String} {st : OrderStatus}
    (h : statusMapping s = some st) : terminalStatus st = true := by
  unfold statusMapping at h
  split at h
  · cases h; rfl
  · split at h
    · cases h; rfl
    · split at h
      · cases h; rfl
      · split at h
        · cases h; rfl
        · cases h

/-! ### Sample data reused by concrete instantiations -/

def sampleNow : DateTime := ⟨2025, 6, 1, 12, 0, 0⟩

def baseNotify : NotifyData :=
  { appid := "app1"
    merch_code := "m1"
    merch_order_id := "ORD1"
    notify_time := "20250601120000"
    notify_url := "https://cb.example"
    payment_order_id := "PAY9"
    total_amount := "1000"
    trans_currency := "DJF"
    trade_status := "Completed"
    trans_end_time := "20250601115959"
    callback_info := none
    sign := "sig"
    sign_type := "SHA256WithRSA" }

def baseOrder : Order :=
  { id := 1
    merchant_id := 7
    merch_order_id := "ORD1"
    product_name := "Widget"
    quantity := 1
    total_amount := 1000
    currency := "DJF"
    status := .PENDING
    prepay_id := none
    payment_order_id := none
    checkout_url := none
    customer_name := "Alice"
    customer_email := "alice@example.com"
    customer_phone := none
    created_at := sampleNow
    updated_at := sampleNow
    trans_end_time := none
    callback_info := none
    gateway_response := none }

/-! ### C1 — status transitions -/

/-- C1 counterexample: `applyNotification` on a COMPLETED (terminal)
order whose payload carries an unrecognized `trade_status` moves the
order back to PROCESSING, and a terminal state (COMPLETED) is entered
directly from PENDING, contradicting both halves of the claim that
terminal states are never left for PENDING/PROCESSING and are entered
only from PROCESSING or themselves. -/
theorem notify_breaks_claimed_state_machine :
    terminalStatus ({ baseOrder with status := .COMPLETED } : Order).status = true ∧
    (applyNotifyOrder { baseOrder with status := .COMPLETED }
      { baseNotify with trade_status := "Bogus" } sampleNow).status = .PROCESSING ∧
    baseOrder.status = .PENDING ∧ terminalStatus .PENDING = false ∧
    (applyNotifyOrder baseOrder baseNotify sampleNow).status = .COMPLETED := by
  refine ⟨rfl, ?_, rfl, rfl, ?_⟩ <;> decide

/-- C1 amended: neither reconciliation path ever sets PENDING; the query
path only ever writes one of the four terminal states (so it never moves
any order to PENDING or PROCESSING); the notification path maps a
recognized `trade_status` to its terminal state from any current state
and defaults to PROCESSING — including from a terminal state — when the
`trade_status` is unrecognized. -/
theorem status_transition_policy (o : Order) (d : NotifyData) (now : DateTime)
    (s : Store) (mid : String) (resp : QueryResponse) :
    (applyNotifyOrder o d now).status ≠ .PENDING ∧
    (statusMapping d.trade_status = none →
      (applyNotifyOrder o d now).status = .PROCESSING) ∧
    (∀ st, statusMapping d.trade_status = some st →
      (applyNotifyOrder o d now).status = st ∧ terminalStatus st = true) ∧
    (∀ o' ∈ (query_order_handler s mid resp now).2, o' ∈ s ∨
      terminalStatus o'.status = true) := by
  refine ⟨?_, ?_, ?_, ?_⟩
  · rcases h : statusMapping d.trade_status with _ | st
    · simp [applyNotifyOrder, h]
    · have := statusMapping_terminal h
      simp only [applyNotifyOrder, h, Option.getD_some]
      intro hEq
      rw [hEq] at this
      exact absurd this (by decide)
  · intro h
    simp [applyNotifyOrder, h]
  · intro st h
    exact ⟨by simp [applyNotifyOrder, h], statusMapping_terminal h⟩
  · intro o' ho'
    unfold query_order_handler at ho'
    split at ho'
    · dsimp only at ho'
      split at ho'
      · exact Or.inl ho'
      · split at ho'
        · exact Or.inl ho'
        · split at ho'
          · exact Or.inl ho'
          · split at ho'
            · exact Or.inl ho'
            · rename_i st hmap
              rcases mem_updateFirst ho' with h | ⟨o₁, _, rfl⟩
              · exact Or.inl h
              · exact Or.inr (statusMapping_terminal hmap)
    · exact Or.inl ho'

/-- Witness for `status_transition_policy` at concrete inputs. -/
theorem status_transition_policy_witness :
    (applyNotifyOrder baseOrder { baseNotify with trade_status := "Nonsense" }
      sampleNow).status = .PROCESSING ∧
    (applyNotifyOrder baseOrder baseNotify sampleNow).status = .COMPLETED ∧
    terminalStatus .COMPLETED = true := by
  refine ⟨?_, ?_, by decide⟩
  · exact (status_transition_policy baseOrder
      { baseNotify with trade_status := "Nonsense" } sampleNow [] "x"
      ⟨none, none, none, none, none⟩).2.1 (by decide)
  · exact ((status_transition_policy baseOrder baseNotify sampleNow [] "x"
      ⟨none, none, none, none, none⟩).2.2.1 .COMPLETED (by decide)).1

/-! ### C3 — idempotence of applyNotification -/

/-- Re-applying the per-order notification update changes nothing
observable: every field written is a function of the payload alone,
except `trans_end_time`, which is absorbed on the second pass. -/
theorem applyNotifyOrder_obs_idem (o : Order) (d : NotifyData) (n₁ n₂ : DateTime) :
    (applyNotifyOrder (applyNotifyOrder o d n₁) d n₂).obs =
      (applyNotifyOrder o d n₁).obs := by
  unfold applyNotifyOrder Order.obs
  by_cases hc : d.trans_end_time = ""
  · simp [hc]
  · rcases hp : strptime14 d.trans_end_time with _ | t <;> simp [hc, hp]

/-- C3: `update_order_status_from_notify` is idempotent — applying the
same payload twice leaves every stored order, and the returned order,
in the same observable state (everything except the `updated_at` wall
clock stamp) as applying it once, and the table never grows or shrinks
(records are overwritten in place, never duplicated). -/
theorem notify_idempotent (s : Store) (d : NotifyData) (n₁ n₂ : DateTime) :
    ((update_order_status_from_notify
        (update_order_status_from_notify s d n₁).2 d n₂).2.map Order.obs =
      (update_order_status_from_notify s d n₁).2.map Order.obs) ∧
    ((update_order_status_from_notify
        (update_order_status_from_notify s d n₁).2 d n₂).1.map Order.obs =
      (update_order_status_from_notify s d n₁).1.map Order.obs) ∧
    (update_order_status_from_notify s d n₁).2.length = s.length := by
  have hkey : ∀ (n : DateTime) (o : Order),
      (applyNotifyOrder o d n).merch_order_id = o.merch_order_id := by
    intro n o; rfl
  unfold update_order_status_from_notify
  rcases hfind : get_order_by_merch_id s d.merch_order_id with _ | o
  · simp [hfind, updateFirst_length]
  · have hfind₂ :
        get_order_by_merch_id
          (updateFirst s d.merch_order_id fun x => applyNotifyOrder x d n₁)
          d.merch_order_id = some (applyNotifyOrder o d n₁) := by
      rw [find?_updateFirst _ _ _ (hkey n₁), hfind]; rfl
    simp only [hfind, hfind₂]
    refine ⟨?_, ?_, updateFirst_length s _ _⟩
    · rw [updateFirst_updateFirst _ _ _ _ (hkey n₁)]
      exact updateFirst_map_congr Order.obs s d.merch_order_id _ _
        (fun o' => applyNotifyOrder_obs_idem o' d n₁ n₂)
    · simp [applyNotifyOrder_obs_idem]

/-! ### C4 — query-order reconciliation -/

/-- C4: on business failure (`code != "0" or result != "SUCCESS"`) the
query endpoint performs no local mutation and the caller receives an
error response carrying the processor's message; on business success,
the stored orders change only when the reported `order_status` maps to
a recognized status (and the order exists), in which case exactly the
found order's status and payment-order-id are overwritten. -/
theorem query_order_reconciliation (s : Store) (mid : String)
    (resp : QueryResponse) (now : DateTime) :
    (¬(resp.code = some "0" ∧ resp.result = some "SUCCESS") →
      query_order_handler s mid resp now =
        ((500, strHTTPExc 400 (resp.msg.getD "Query order failed")), s)) ∧
    (resp.code = some "0" ∧ resp.result = some "SUCCESS" →
      (query_order_handler s mid resp now).1 = (200, "Order query successful") ∧
      (statusMapping (resp.order_status.getD "") = none →
        (query_order_handler s mid resp now).2 = s) ∧
      (get_order_by_merch_id s mid = none →
        (query_order_handler s mid resp now).2 = s) ∧
      (∀ os st, resp.order_status = some os → statusMapping os = some st →
        get_order_by_merch_id s mid ≠ none →
        (query_order_handler s mid resp now).2 =
          updateFirst s mid fun o =>
            { o with
              status := st
              payment_order_id := resp.payment_order_id
              updated_at := now })) := by
  constructor
  · intro h
    rw [query_order_handler, if_neg h]
  · intro h
    rw [query_order_handler, if_pos h]
    refine ⟨rfl, ?_, ?_, ?_⟩
    · intro hmap
      rcases hfind : get_order_by_merch_id s mid with _ | o
      · rfl
      · dsimp only
        rcases hos : resp.order_status with _ | os
        · rfl
        · rw [hos] at hmap
          simp only [Option.getD_some] at hmap
          dsimp only
          by_cases hos' : os = ""
          · rw [if_pos hos']
          · rw [if_neg hos', hmap]
    · intro hfind
      rw [hfind]
    · intro os st hos hmap hfind
      rcases hfind' : get_order_by_merch_id s mid with _ | o
      · exact absurd hfind' hfind
      · dsimp only
        rw [hos]
        dsimp only
        have hos' : ¬os = "" := by
          intro h0
          rw [h0] at hmap
          simp [statusMapping] at hmap
        rw [if_neg hos', hmap]

/-- Witness for `query_order_reconciliation`: a business-failure
response mutates nothing and surfaces the processor message; a
successful response with recognized `order_status` rewrites the stored
order. -/
theorem query_order_reconciliation_witness :
    query_order_handler [baseOrder] "ORD1"
        ⟨some "1", some "SUCCESS", some "boom", none, none⟩ sampleNow =
      ((500, "400: boom"), [baseOrder]) ∧
    (query_order_handler [baseOrder] "ORD1"
        ⟨some "0", some "SUCCESS", none, some "Completed", some "PAY9"⟩
        sampleNow).2 =
      updateFirst [baseOrder] "ORD1" fun o =>
        { o with
          status := .COMPLETED
          payment_order_id := some "PAY9"
          updated_at := sampleNow } := by
  constructor
  · exact (query_order_reconciliation [baseOrder] "ORD1"
      ⟨some "1", some "SUCCESS", some "boom", none, none⟩ sampleNow).1
      (by decide)
  · exact (query_order_reconciliation [baseOrder] "ORD1"
      ⟨some "0", some "SUCCESS", none, some "Completed", some "PAY9"⟩
      sampleNow).2 (by decide) |>.2.2.2 "Completed" .COMPLETED rfl (by decide)
      (by decide)

/-! ### C6 — unknown merchant-order-id on the webhook -/

/-- C6: when the notification's `merch_order_id` matches no stored
order, the CRUD layer returns `None` and mutates nothing — but the
webhook handler's blanket `except Exception` catches its own
`HTTPException(404)` and answers HTTP 500 (`"404: Order not found"` as
detail), not a 404 not-found response. -/
theorem payment_notify_unknown_order (s : Store) (d : NotifyData) (now : DateTime)
    (h : get_order_by_merch_id s d.merch_order_id = none) :
    update_order_status_from_notify s d now = (none, s) ∧
    payment_notify s d now = ((500, "404: Order not found"), s) := by
  have h1 : update_order_status_from_notify s d now = (none, s) := by
    rw [update_order_status_from_notify, h]
  refine ⟨h1, ?_⟩
  rw [payment_notify, h1]
  have : strHTTPExc 404 "Order not found" = "404: Order not found" := by decide
  rw [this]

/-- Witness for `payment_notify_unknown_order`: the store holds only
`"ORD1"`, the payload names `"ORD2"`; the store is returned unchanged
and the HTTP answer is a 500 wrapping the not-found message. -/
theorem payment_notify_unknown_order_witness :
    update_order_status_from_notify [baseOrder]
        { baseNotify with merch_order_id := "ORD2" } sampleNow =
      (none, [baseOrder]) ∧
    payment_notify [baseOrder] { baseNotify with merch_order_id := "ORD2" }
        sampleNow =
      ((500, "404: Order not found"), [baseOrder]) :=
  payment_notify_unknown_order [baseOrder]
    { baseNotify with merch_order_id := "ORD2" } sampleNow (by decide)

/-! ### C8 — malformed `trans_end_time` is non-fatal -/

/-- C8: when the payload carries a `trans_end_time`, a parseable value
(under `%Y%m%d%H%M%S`) is recorded; an empty or unparseable one leaves
the stored timestamp untouched while the rest of the update (status,
payment-order-id, audit payload) still happens — the operation has no
failure path for a malformed timestamp. -/
theorem notify_tolerates_malformed_timestamp (o : Order) (d : NotifyData)
    (now : DateTime) :
    (∀ t, d.trans_end_time ≠ "" → strptime14 d.trans_end_time = some t →
      (applyNotifyOrder o d now).trans_end_time = some t) ∧
    (strptime14 d.trans_end_time = none →
      (applyNotifyOrder o d now).trans_end_time = o.trans_end_time) ∧
    (applyNotifyOrder o d now).status =
      (statusMapping d.trade_status).getD .PROCESSING ∧
    (applyNotifyOrder o d now).payment_order_id = some d.payment_order_id ∧
    (applyNotifyOrder o d now).callback_info = some d := by
  refine ⟨?_, ?_, rfl, rfl, rfl⟩
  · intro t hne hp
    simp [applyNotifyOrder, hne, hp]
  · intro hp
    by_cases hc : d.trans_end_time = "" <;>
      simp [applyNotifyOrder, hc, hp]

/-- Witness for `notify_tolerates_malformed_timestamp`: a payload with
the garbage timestamp `"notadate"` still flips the order to COMPLETED
with the payment id and audit payload stored, keeping the old
timestamp; the same payload with a well-formed timestamp records it. -/
theorem notify_tolerates_malformed_timestamp_witness :
    (applyNotifyOrder baseOrder { baseNotify with trans_end_time := "notadate" }
        sampleNow).trans_end_time = baseOrder.trans_end_time ∧
    (applyNotifyOrder baseOrder { baseNotify with trans_end_time := "notadate" }
        sampleNow).status = .COMPLETED ∧
    (applyNotifyOrder baseOrder { baseNotify with trans_end_time := "notadate" }
        sampleNow).payment_order_id = some "PAY9" ∧
    (applyNotifyOrder baseOrder baseNotify sampleNow).trans_end_time =
      some ⟨2025, 6, 1, 11, 59, 59⟩ := by
  have h₁ := notify_tolerates_malformed_timestamp baseOrder
    { baseNotify with trans_end_time := "notadate" } sampleNow
  have h₂ := notify_tolerates_malformed_timestamp baseOrder baseNotify sampleNow
  exact ⟨h₁.2.1 (by decide), h₁.2.2.1.trans (by decide), h₁.2.2.2.1,
    h₂.1 ⟨2025, 6, 1, 11, 59, 59⟩ (by decide) (by decide)⟩

/-! ### C7 — token issuance -/

/-- C7 counterexample: with HTTP 200, a missing `token` field and a
valid `expirationDate`, `generate_token` succeeds with an empty token
(the claim says it must fail); with HTTP 201 (a 2xx status) it fails;
with HTTP 200, a token present and a malformed `expirationDate` it also
fails — so "fails exactly when non-2xx or token missing" is wrong on
both sides. -/
theorem generate_token_divergences :
    generate_token ⟨200, none, some "20250101000000"⟩ =
      .ok ("", ⟨2025, 1, 1, 0, 0, 0⟩) ∧
    generate_token ⟨201, some "tok", some "20250101000000"⟩ =
      .error .httpStatus ∧
    generate_token ⟨200, some "tok", some "bad"⟩ = .error .badExpiration := by
  refine ⟨?_, ?_, ?_⟩ <;> rfl

/-- C7 amended: `generate_token` strips a literal `"Bearer "` prefix
from the token value, parses the expiration under `%Y%m%d%H%M%S`, and
fails exactly when the HTTP status is not 200 or the `expirationDate`
field is missing or unparseable; a missing `token` field yields the
empty token string without failure. -/
theorem generate_token_spec (resp : TokenResponse) (t : String) :
    (resp.status ≠ 200 → generate_token resp = .error .httpStatus) ∧
    (resp.status = 200 → resp.expirationDate = none →
      generate_token resp = .error .missingExpiration) ∧
    (∀ s, resp.status = 200 → resp.expirationDate = some s →
      strptime14 s = none → generate_token resp = .error .badExpiration) ∧
    (∀ s dt, resp.status = 200 → resp.expirationDate = some s →
      strptime14 s = some dt →
      generate_token resp = .ok (stripBearer (resp.token.getD ""), dt)) ∧
    stripBearer ("Bearer " ++ t) = t ∧
    (¬"Bearer ".data <+: t.data → stripBearer t = t) := by
  refine ⟨?_, ?_, ?_, ?_, ?_, ?_⟩
  · intro h
    rw [generate_token, if_pos h]
  · intro h he
    rw [generate_token, if_neg (by simpa using h), he]
  · intro s h he hp
    rw [generate_token, if_neg (by simpa using h), he]
    dsimp only
    rw [hp]
  · intro s dt h he hp
    rw [generate_token, if_neg (by simpa using h), he]
    dsimp only
    rw [hp]
  · have hlen : ("Bearer ".data).length = 7 := by decide
    have hd : ("Bearer " ++ t).data = "Bearer ".data ++ t.data := rfl
    rw [stripBearer, hd, if_pos (List.take_left' hlen), List.drop_left' hlen]
  · intro h
    rw [stripBearer, if_neg]
    intro hc
    exact h (hc ▸ List.take_prefix 7 t.data)

/-- Witness for `generate_token_spec` at concrete responses. -/
theorem generate_token_spec_witness :
    generate_token ⟨404, some "tok", some "20250101000000"⟩ =
      .error .httpStatus ∧
    generate_token ⟨200, some "Bearer abc", some "20250101000000"⟩ =
      .ok ("abc", ⟨2025, 1, 1, 0, 0, 0⟩) ∧
    stripBearer ("Bearer " ++ "xyz") = "xyz" := by
  have h := generate_token_spec ⟨404, some "tok", some "20250101000000"⟩ "xyz"
  have h₂ := generate_token_spec ⟨200, some "Bearer abc", some "20250101000000"⟩ "xyz"
  exact ⟨h.1 (by decide),
    h₂.2.2.2.1 "20250101000000" ⟨2025, 1, 1, 0, 0, 0⟩ rfl rfl (by decide),
    h.2.2.2.2.1⟩

/-! ### C2 — signature canonicalization -/

/-- C2 counterexample: on the mapping `[("a", " ")]` the code's
canonical string is `""` (the whitespace-only value is dropped by
`str(v).strip() != ''`), while the claim's recipe — dropping only
absent/empty stringified values — keeps it and yields `"a= "`. -/
theorem sign_canonicalization_strips_whitespace :
    canonicalString [("a", some " ")] ≠ canonicalStringClaim [("a", some " ")] ∧
    canonicalString [("a", some " ")] = "" ∧
    canonicalStringClaim [("a", some " ")] = "a= " := by
  refine ⟨?_, ?_, ?_⟩ <;> decide

/-- C2 amended: the canonical string excludes the keys `sign`,
`sign_type`, `biz_content` and every entry whose value is absent or
whose stringified value strips to empty (empty or whitespace-only);
sorting by key makes it — hence, with the PSS salt fixed, the
signature — independent of the order in which entries were supplied. -/
theorem sign_canonicalization_sound (p q : List (String × Option String))
    (k : String) (v : Option String) (hpq : p.Perm q)
    (hkv : k ∈ excludedKeys ∨ v = none ∨ ∀ s, v = some s → pyStrip s = "") :
    canonicalString p = canonicalString q ∧
    canonicalString ((k, v) :: p) = canonicalString p := by
  constructor
  · have hfe : (filteredEntries p).Perm (filteredEntries q) :=
      List.Perm.filterMap _ hpq
    have hsorted :
        List.insertionSort pairLe (filteredEntries p) =
          List.insertionSort pairLe (filteredEntries q) :=
      List.eq_of_perm_of_sorted
        (((List.perm_insertionSort pairLe _).trans hfe).trans
          (List.perm_insertionSort pairLe _).symm)
        (List.sorted_insertionSort pairLe _)
        (List.sorted_insertionSort pairLe _)
    rw [canonicalString, canonicalString, hsorted]
  · have hfe : filteredEntries ((k, v) :: p) = filteredEntries p := by
      rcases v with _ | s
      · rfl
      · rcases hkv with hk | hv | hs
        · simp [filteredEntries, List.filterMap_cons, hk]
        · cases hv
        · simp [filteredEntries, List.filterMap_cons, hs s rfl]
    rw [canonicalString, canonicalString, hfe]

/-- Witness for `sign_canonicalization_sound`: swapping the two live
entries leaves the canonical string `"a=1&b=2"` unchanged, and
prepending a `sign` entry changes nothing. -/
theorem sign_canonicalization_sound_witness :
    canonicalString [("b", some "2"), ("a", some "1")] =
      canonicalString [("a", some "1"), ("b", some "2")] ∧
    canonicalString (("sign", some "x") :: [("b", some "2"), ("a", some "1")]) =
      canonicalString [("b", some "2"), ("a", some "1")] ∧
    canonicalString [("b", some "2"), ("a", some "1")] = "a=1&b=2" := by
  have h := sign_canonicalization_sound [("b", some "2"), ("a", some "1")]
    [("a", some "1"), ("b", some "2")] "sign" (some "x")
    (List.Perm.swap _ _ _) (Or.inl (by decide))
  exact ⟨h.1, h.2, by decide⟩

/-! ### C5 — checkout URL encoding -/

/-- C5: the checkout URL percent-encodes only the `sign` parameter —
`appid`, `merch_code`, `nonce_str`, `prepay_id` and `timestamp` are
interpolated verbatim (and any value made of URL-safe characters is
untouched by the quoting function anyway) — and the signature
`"A+B/C="` is embedded as `A%2BB%2FC%3D`. -/
theorem checkout_url_encodes_only_signature :
    (∀ base appid merch nonce prepay ts sig,
      generate_checkout_url base appid merch nonce prepay ts sig =
        base ++ "/payment/web/paygate?" ++
        "appid=" ++ appid ++ "&" ++
        "merch_code=" ++ merch ++ "&" ++
        "nonce_str=" ++ nonce ++ "&" ++
        "prepay_id=" ++ prepay ++ "&" ++
        "timestamp=" ++ ts ++ "&" ++
        "sign=" ++ pyQuote sig ++ "&" ++
        "sign_type=SHA256WithRSA&" ++ "version=1.0&" ++ "trade_type=Checkout&" ++
        "language=en") ∧
    (∀ s : String, (∀ c ∈ s.data, isUrlSafe c = true) → pyQuote s = s) ∧
    pyQuote "A+B/C=" = "A%2BB%2FC%3D" := by
  refine ⟨fun _ _ _ _ _ _ _ => rfl, ?_, by decide⟩
  have haux : ∀ l : List Char, (∀ c ∈ l, isUrlSafe c = true) →
      l.flatMap (fun c =>
        if isUrlSafe c then [c]
        else (utf8Bytes c).flatMap fun b =>
          ['%', hexDigitU (b / 16), hexDigitU (b % 16)]) = l := by
    intro l hl
    induction l with
    | nil => rfl
    | cons hd tl ih =>
      rw [List.flatMap_cons, if_pos (hl hd (List.mem_cons_self hd tl)),
        ih fun c hc => hl c (List.mem_cons_of_mem hd hc)]
      rfl
  intro s hs
  rw [pyQuote, haux s.data hs]

/-- Witness for `checkout_url_encodes_only_signature`: a fully concrete
URL, and quoting leaving a safe string untouched. -/
theorem checkout_url_encodes_only_signature_witness :
    pyQuote "abc123" = "abc123" ∧
    generate_checkout_url "https://cko" "A1" "M1" "N1" "P1" "T1" "A+B/C=" =
      "https://cko/payment/web/paygate?appid=A1&merch_code=M1&nonce_str=N1&prepay_id=P1&timestamp=T1&sign=A%2BB%2FC%3D&sign_type=SHA256WithRSA&version=1.0&trade_type=Checkout&language=en" := by
  refine ⟨checkout_url_encodes_only_signature.2.1 "abc123" (by decide), ?_⟩
  exact (checkout_url_encodes_only_signature.1 "https://cko" "A1" "M1" "N1" "P1"
    "T1" "A+B/C=").trans (by decide)

/-! ### C9 — identity fields are immutable -/

/-- C9: `attachPayment`, `applyNotification` and the query
reconciliation never touch an order's `merch_order_id` or its
`merchant_id` reference (stated per order and across the whole table),
and `create_order` is the only place the merchant-order-identifier is
assigned — the created row carries exactly the generated identifier and
the requested merchant. -/
theorem identifiers_immutable (o : Order) (prepay url gw : String)
    (now : DateTime) (d : NotifyData) (s : Store) (mid : String)
    (resp : QueryResponse) (data : CreateOrderData) (mid' : String)
    (rowId : Nat) (now' : DateTime) :
    (attachPayment o prepay url gw now).idKey = o.idKey ∧
    (applyNotifyOrder o d now).idKey = o.idKey ∧
    (update_order_with_payment s mid prepay url gw now).2.map Order.idKey =
      s.map Order.idKey ∧
    (update_order_status_from_notify s d now).2.map Order.idKey =
      s.map Order.idKey ∧
    (query_order_handler s mid resp now).2.map Order.idKey =
      s.map Order.idKey ∧
    (create_order data mid' rowId now').merch_order_id = mid' ∧
    (create_order data mid' rowId now').merchant_id = data.merchant_id := by
  refine ⟨rfl, rfl, ?_, ?_, ?_, rfl, rfl⟩
  · rw [update_order_with_payment]
    rcases get_order_by_merch_id s mid with _ | o₀
    · rfl
    · exact updateFirst_map_eq Order.idKey s mid _ fun o' => rfl
  · rw [update_order_status_from_notify]
    rcases get_order_by_merch_id s d.merch_order_id with _ | o₀
    · rfl
    · exact updateFirst_map_eq Order.idKey s d.merch_order_id _ fun o' => rfl
  · rw [query_order_handler]
    split
    · dsimp only
      rcases get_order_by_merch_id s mid with _ | o₀
      · rfl
      · rcases resp.order_status with _ | os
        · rfl
        · dsimp only
          split
          · rfl
          · rcases statusMapping os with _ | st
            · rfl
            · exact updateFirst_map_eq Order.idKey s mid _ fun o' => rfl
    · rfl

/-! ### C10 — merchant order id generation -/

theorem padDigits_length : ∀ (w n : Nat), (padDigits w n).length = w
  | 0, _ => rfl
  | w + 1, n => by rw [padDigits, List.length_cons, padDigits_length w]

theorem digitChar_mono : ∀ a b : Fin 10, a.val < b.val →
    Nat.digitChar a.val < Nat.digitChar b.val := by decide

/-- Fixed-width zero-padded decimal strings compare lexicographically
like the numbers they spell. -/
theorem padDigits_lex (w m n : Nat) (hmn : m < n) (hn : n < 10 ^ w) :
    List.Lex (· < ·) (padDigits w m) (padDigits w n) := by
  induction w generalizing m n with
  | zero =>
    simp only [pow_zero] at hn
    omega
  | succ w ih =>
    rw [padDigits, padDigits]
    have hq : m / 10 ^ w ≤ n / 10 ^ w := Nat.div_le_div_right (le_of_lt hmn)
    have hnd : n / 10 ^ w < 10 := by
      apply Nat.div_lt_of_lt_mul
      calc n < 10 ^ (w + 1) := hn
        _ = 10 ^ w * 10 := by rw [pow_succ]
    rcases lt_or_eq_of_le hq with hq | hq
    · exact List.Lex.rel (digitChar_mono ⟨m / 10 ^ w, by omega⟩ ⟨n / 10 ^ w, hnd⟩ hq)
    · rw [hq]
      have hmod : m % 10 ^ w < n % 10 ^ w := by
        clear hnd ih hn
        have h1 := Nat.div_add_mod m (10 ^ w)
        have h2 := Nat.div_add_mod n (10 ^ w)
        rw [← hq] at h2
        omega
      exact List.Lex.cons (ih _ _ hmod (Nat.mod_lt _ (Nat.pow_pos (by norm_num))))

/-- Splitting a fixed-width decimal rendering at a digit boundary. -/
theorem padDigits_append (a b x y : Nat) (hx : x < 10 ^ a) (hy : y < 10 ^ b) :
    padDigits (a + b) (x * 10 ^ b + y) = padDigits a x ++ padDigits b y := by
  induction a generalizing x with
  | zero =>
    simp only [pow_zero] at hx
    have hx0 : x = 0 := by omega
    subst hx0
    rw [Nat.zero_add, Nat.zero_mul, Nat.zero_add, padDigits, List.nil_append]
  | succ a ih =>
    have ha : (0 : Nat) < 10 ^ a := Nat.pow_pos (by norm_num)
    have hPQ : (10 : Nat) ^ (a + b) = 10 ^ a * 10 ^ b := pow_add 10 a b
    have hq := Nat.div_add_mod x (10 ^ a)
    have hr : x % 10 ^ a < 10 ^ a := Nat.mod_lt _ ha
    have hN : x * 10 ^ b + y =
        10 ^ (a + b) * (x / 10 ^ a) + ((x % 10 ^ a) * 10 ^ b + y) := by
      rw [hPQ]
      calc x * 10 ^ b + y
          = (10 ^ a * (x / 10 ^ a) + x % 10 ^ a) * 10 ^ b + y := by rw [hq]
        _ = 10 ^ a * 10 ^ b * (x / 10 ^ a) + ((x % 10 ^ a) * 10 ^ b + y) := by ring
    have hs : (x % 10 ^ a) * 10 ^ b + y < 10 ^ (a + b) := by
      rw [hPQ]
      calc (x % 10 ^ a) * 10 ^ b + y
          < (x % 10 ^ a) * 10 ^ b + 10 ^ b := by omega
        _ = (x % 10 ^ a + 1) * 10 ^ b := by ring
        _ ≤ 10 ^ a * 10 ^ b := Nat.mul_le_mul_right _ (by omega)
    have key1 : (x * 10 ^ b + y) / 10 ^ (a + b) = x / 10 ^ a := by
      rw [hN, Nat.mul_add_div (by positivity), Nat.div_eq_of_lt hs, Nat.add_zero]
    have key2 : (x * 10 ^ b + y) % 10 ^ (a + b) = (x % 10 ^ a) * 10 ^ b + y := by
      rw [hN, Nat.mul_add_mod, Nat.mod_eq_of_lt hs]
    rw [Nat.succ_add, padDigits, padDigits, key1, key2, ih (x % 10 ^ a) hr,
      List.cons_append]

theorem format14_length (t : DateTime) : (format14 t).data.length = 14 := by
  simp [format14, padDigits_length]

/-- For in-range datetimes `strftime("%Y%m%d%H%M%S")` spells exactly the
14-digit decimal number `encodeDT`. -/
theorem format14_data (t : DateTime) (h : t.InRange) :
    (format14 t).data = padDigits 14 (encodeDT t) := by
  obtain ⟨hy₁, hy₂, hmo, hd, hh, hmi, hs⟩ := h
  have p2 : (10 : Nat) ^ 2 = 100 := by norm_num
  have p4 : (10 : Nat) ^ 4 = 10000 := by norm_num
  have p6 : (10 : Nat) ^ 6 = 1000000 := by norm_num
  have p8 : (10 : Nat) ^ 8 = 100000000 := by norm_num
  have p10 : (10 : Nat) ^ 10 = 10000000000 := by norm_num
  have p12 : (10 : Nat) ^ 12 = 1000000000000 := by norm_num
  have b1 : t.year * 100 + t.month < 10 ^ 6 := by omega
  have b2 : (t.year * 100 + t.month) * 100 + t.day < 10 ^ 8 := by omega
  have b3 : ((t.year * 100 + t.month) * 100 + t.day) * 100 + t.hour < 10 ^ 10 := by
    omega
  have b4 : (((t.year * 100 + t.month) * 100 + t.day) * 100 + t.hour) * 100 +
      t.minute < 10 ^ 12 := by omega
  have s5 : padDigits 14 (encodeDT t) =
      padDigits 12 ((((t.year * 100 + t.month) * 100 + t.day) * 100 + t.hour) *
        100 + t.minute) ++ padDigits 2 t.second :=
    padDigits_append 12 2 _ t.second b4 (by omega)
  have s4 : padDigits 12 ((((t.year * 100 + t.month) * 100 + t.day) * 100 +
        t.hour) * 100 + t.minute) =
      padDigits 10 (((t.year * 100 + t.month) * 100 + t.day) * 100 + t.hour) ++
        padDigits 2 t.minute :=
    padDigits_append 10 2 _ t.minute b3 (by omega)
  have s3 : padDigits 10 (((t.year * 100 + t.month) * 100 + t.day) * 100 +
        t.hour) =
      padDigits 8 ((t.year * 100 + t.month) * 100 + t.day) ++ padDigits 2 t.hour :=
    padDigits_append 8 2 _ t.hour b2 (by omega)
  have s2 : padDigits 8 ((t.year * 100 + t.month) * 100 + t.day) =
      padDigits 6 (t.year * 100 + t.month) ++ padDigits 2 t.day :=
    padDigits_append 6 2 _ t.day b1 (by omega)
  have s1 : padDigits 6 (t.year * 100 + t.month) =
      padDigits 4 t.year ++ padDigits 2 t.month :=
    padDigits_append 4 2 t.year t.month (by omega) (by omega)
  rw [s5, s4, s3, s2, s1, format14]

/-- `encodeDT` is injective on in-range datetimes. -/
theorem encodeDT_inj (t₁ t₂ : DateTime) (h₁ : t₁.InRange) (h₂ : t₂.InRange)
    (h : encodeDT t₁ = encodeDT t₂) : t₁ = t₂ := by
  cases t₁
  cases t₂
  unfold DateTime.InRange at h₁ h₂
  unfold encodeDT at h
  dsimp only at h₁ h₂ h
  obtain ⟨_, _, _, _, _, _, _⟩ := h₁
  obtain ⟨_, _, _, _, _, _, _⟩ := h₂
  simp only [DateTime.mk.injEq]
  omega

/-- Chronological order of in-range datetimes carries over to the
lexicographic (string) order of their `%Y%m%d%H%M%S` renderings. -/
theorem format14_mono (t₁ t₂ : DateTime) (h₁ : t₁.InRange) (h₂ : t₂.InRange)
    (hle : encodeDT t₁ ≤ encodeDT t₂) : format14 t₁ ≤ format14 t₂ := by
  rcases lt_or_eq_of_le hle with hlt | heq
  · apply le_of_lt
    apply String.lt_iff_toList_lt.mpr
    show List.Lex (· < ·) (format14 t₁).data (format14 t₂).data
    rw [format14_data t₁ h₁, format14_data t₂ h₂]
    have hb : encodeDT t₂ < 10 ^ 14 := by
      obtain ⟨_, _, _, _, _, _, _⟩ := h₂
      have : (10 : Nat) ^ 14 = 100000000000000 := by norm_num
      unfold encodeDT
      omega
    exact padDigits_lex 14 _ _ hlt hb
  · rw [encodeDT_inj t₁ t₂ h₁ h₂ heq]

/-- Value of an uppercase hexadecimal digit character. -/
def unHexU (c : Char) : Nat :=
  if c.toNat ≤ 57 then c.toNat - 48 else c.toNat - 55

def hexPairDecode (cs : List Char) : Nat :=
  cs.foldl (fun acc c => acc * 16 + unHexU c) 0

/-- Uppercase hexadecimal digit predicate. -/
def isHexDigitUC (c : Char) : Bool := c.isDigit ∨ ('A' ≤ c ∧ c ≤ 'F')

theorem byteHex_roundtrip : ∀ b : Fin 256,
    hexPairDecode ((byteHexL b.val).map Char.toUpper) = b.val := by decide

theorem byteHex_chars : ∀ b : Fin 256,
    ∀ c ∈ (byteHexL b.val).map Char.toUpper, isHexDigitUC c = true := by decide

theorem byteHex_inj {a b : Nat} (ha : a < 256) (hb : b < 256)
    (h : (byteHexL a).map Char.toUpper = (byteHexL b).map Char.toUpper) :
    a = b := by
  have ra : hexPairDecode ((byteHexL a).map Char.toUpper) = a :=
    byteHex_roundtrip ⟨a, ha⟩
  have rb : hexPairDecode ((byteHexL b).map Char.toUpper) = b :=
    byteHex_roundtrip ⟨b, hb⟩
  rw [← ra, ← rb, h]

theorem flatMap_byteHexL_length (bs : List Nat) :
    (bs.flatMap byteHexL).length = 2 * bs.length := by
  induction bs with
  | nil => rfl
  | cons hd tl ih => simp [List.flatMap_cons, byteHexL, ih]; omega

theorem tokenHexUpper_inj : ∀ (l₁ l₂ : List Nat), l₁.length = l₂.length →
    (∀ x ∈ l₁, x < 256) → (∀ x ∈ l₂, x < 256) →
    (l₁.flatMap byteHexL).map Char.toUpper =
      (l₂.flatMap byteHexL).map Char.toUpper →
    l₁ = l₂ := by
  intro l₁
  induction l₁ with
  | nil =>
    intro l₂ hlen _ _ _
    cases l₂
    · rfl
    · simp at hlen
  | cons a t ih =>
    intro l₂ hlen hv₁ hv₂ h
    cases l₂ with
    | nil => simp at hlen
    | cons b t₂ =>
      rw [List.flatMap_cons, List.flatMap_cons, List.map_append,
        List.map_append] at h
      have hlen2 : ((byteHexL a).map Char.toUpper).length =
          ((byteHexL b).map Char.toUpper).length := by
        simp [byteHexL]
      obtain ⟨hhd, htl⟩ := List.append_inj h hlen2
      have hab : a = b :=
        byteHex_inj (hv₁ a (List.mem_cons_self a t))
          (hv₂ b (List.mem_cons_self b t₂)) hhd
      subst hab
      have htt : t = t₂ := by
        refine ih t₂ ?_ ?_ ?_ htl
        · simpa using hlen
        · exact fun x hx => hv₁ x (List.mem_cons_of_mem a hx)
        · exact fun x hx => hv₂ x (List.mem_cons_of_mem a hx)
      rw [htt]

/-- C10: every generated identifier is literally `"ORD"` followed by the
`%Y%m%d%H%M%S` rendering of the current time (14 characters, monotone in
chronological time) followed by the eight uppercase hex digits of the
four random bytes; hence two draws with distinct random bytes give
distinct identifiers regardless of the two clock readings. -/
theorem generate_merch_order_id_ok (t₁ t₂ : DateTime) (bs₁ bs₂ : List Nat)
    (h₁ : t₁.InRange) (h₂ : t₂.InRange)
    (hl₁ : bs₁.length = 4) (hl₂ : bs₂.length = 4)
    (hv₁ : ∀ x ∈ bs₁, x < 256) (hv₂ : ∀ x ∈ bs₂, x < 256)
    (hne : bs₁ ≠ bs₂) (hclock : encodeDT t₁ ≤ encodeDT t₂) :
    generate_merch_order_id t₁ bs₁ =
      "ORD" ++ format14 t₁ ++
        String.mk ((token_hex bs₁).data.map Char.toUpper) ∧
    (format14 t₁).data.length = 14 ∧
    format14 t₁ ≤ format14 t₂ ∧
    ((token_hex bs₁).data.map Char.toUpper).length = 8 ∧
    (∀ c ∈ (token_hex bs₁).data.map Char.toUpper, isHexDigitUC c = true) ∧
    generate_merch_order_id t₁ bs₁ ≠ generate_merch_order_id t₂ bs₂ := by
  have hhex : ∀ bs : List Nat, (token_hex bs).data = bs.flatMap byteHexL :=
    fun bs => rfl
  refine ⟨rfl, format14_length t₁, format14_mono t₁ t₂ h₁ h₂ hclock, ?_, ?_, ?_⟩
  · rw [List.length_map, hhex, flatMap_byteHexL_length, hl₁]
  · intro c hc
    rw [hhex] at hc
    obtain ⟨c₀, hc₀, rfl⟩ := List.mem_map.mp hc
    obtain ⟨b, hb, hcb⟩ := List.mem_flatMap.mp hc₀
    exact byteHex_chars ⟨b, hv₁ b hb⟩ _ (List.mem_map_of_mem Char.toUpper hcb)
  · intro heq
    have hdata : ("ORD".data ++ (format14 t₁).data) ++
        (token_hex bs₁).data.map Char.toUpper =
        ("ORD".data ++ (format14 t₂).data) ++
          (token_hex bs₂).data.map Char.toUpper := congrArg String.data heq
    have hplen : ("ORD".data ++ (format14 t₁).data).length =
        ("ORD".data ++ (format14 t₂).data).length := by
      rw [List.length_append, List.length_append, format14_length,
        format14_length]
    obtain ⟨-, hsuffix⟩ := List.append_inj hdata hplen
    rw [hhex, hhex] at hsuffix
    exact hne (tokenHexUpper_inj bs₁ bs₂ (hl₁.trans hl₂.symm) hv₁ hv₂ hsuffix)

/-- Witness for `generate_merch_order_id_ok` at two concrete clock
readings and byte draws. -/
theorem generate_merch_order_id_ok_witness :
    generate_merch_order_id ⟨2024, 3, 5, 7, 9, 11⟩ [0xde, 0xad, 0xbe, 0xef] ≠
      generate_merch_order_id ⟨2024, 3, 5, 7, 9, 12⟩ [0xde, 0xad, 0xbe, 0xee] ∧
    format14 ⟨2024, 3, 5, 7, 9, 11⟩ ≤ format14 ⟨2024, 3, 5, 7, 9, 12⟩ ∧
    generate_merch_order_id ⟨2024, 3, 5, 7, 9, 11⟩ [0xde, 0xad, 0xbe, 0xef] =
      "ORD20240305070911DEADBEEF" := by
  have h := generate_merch_order_id_ok ⟨2024, 3, 5, 7, 9, 11⟩
    ⟨2024, 3, 5, 7, 9, 12⟩ [0xde, 0xad, 0xbe, 0xef] [0xde, 0xad, 0xbe, 0xee]
    (by constructor <;> norm_num) (by constructor <;> norm_num)
    rfl rfl (by decide) (by decide) (by decide) (by norm_num [encodeDT])
  exact ⟨h.2.2.2.2.2, h.2.2.1, by decide⟩

end CallSmartly
